import Mathlib

/-!
Shallow embedding of the `relax` HTTP-client decorator library
(`clent.go` and `pkg/client/clent.go` + `pkg/client/operations.go`;
the two copies have identical logic, so a single embedding covers both).

External collaborators (the HTTP transport, URL parsing inside
`http.NewRequest`, the go-cache store and the token-bucket limiter) are
modelled as pure data:
- the transport is a function `Request -> Option Response x Option Err`
  supplied by an `Env` record, and we count how many times it is invoked;
- `http.NewRequest "GET" url nil` fails exactly when the environment
  says the URL does not parse (`Env.parseErr`);
- the cache is an association list of entries `url -> stored value`,
  where the stored value is a `*http.Response`, i.e. `Option Response`
  (the code can store a nil pointer); `SetDefault` prepends, and lookup
  takes the first match, which is observationally the same as go-cache
  replacement semantics;
- the limiter is its available-token count; `Limiter.Wait` with a
  background context blocks until a token is available and then
  consumes one, returning a nil error (the blocking itself and
  context-cancellation failures are outside this timeless model).

Errors are modelled by their message string, exactly as produced by
`errors.New` in the source.
-/

abbrev Err := String

structure Response where
  id : Nat
deriving DecidableEq, Repr

structure Request where
  method : String
  url : String
deriving DecidableEq, Repr

/-- Contents of a go-cache store: entries mapping a key to a stored
`*http.Response` value (possibly a nil pointer). -/
abbrev CacheMap := List (String × Option Response)

/-- `cache.Get(k)`: `(value, found)`; `some v` means found with stored value `v`. -/
def cacheGet (m : CacheMap) (k : String) : Option (Option Response) :=
  (m.find? (fun p => p.1 == k)).map (fun p => p.2)

/-- `cache.SetDefault(k, v)`: store `v` under `k`; the new entry shadows
any older entry for `k` under first-match lookup. -/
def cacheSetDefault (m : CacheMap) (k : String) (v : Option Response) : CacheMap :=
  (k, v) :: m

/-- `rate.Limiter.Wait(context.Background())`: block until a token is
available, then consume it. -/
def limiterWait (tokens : Nat) : Nat := tokens - 1

/-- The `Client` struct. `Cache = none` and `Limiter = none` model nil
pointers; `HTTPTimeout` is the `Timeout` field of the wrapped
`http.Client` (the transport behavior itself lives in `Env`), and the
OAuth credentials are an opaque collaborator not re-modelled here. -/
structure Client where
  Cache : Option CacheMap
  Limiter : Option Nat
  Timeout : Int
  HTTPTimeout : Int
deriving DecidableEq, Repr

/-- External world: the underlying transport (`c.HTTP.Do`) as a pure
function, and the URL-parse outcome of `http.NewRequest "GET" url nil`. -/
structure Env where
  transport : Request → Option Response × Option Err
  parseErr : String → Option Err

/-- The per-call `Modifiers` flag bundle. -/
structure Modifiers where
  UseCache : Bool
  UseLimiter : Bool
deriving DecidableEq, Repr

/-- `Modifier`: a functional option for a request. -/
abbrev Modifier := Modifiers → Modifiers

/-- The `UseCache(use bool)` toggle. -/
def UseCache (use : Bool) : Modifier :=
  fun m => { m with UseCache := use }

/-- The `UseLimiter(use bool)` toggle. -/
def UseLimiter (use : Bool) : Modifier :=
  fun m => { m with UseLimiter := use }

/-- `modifiers := &Modifiers{}; for _, mod := range mods { mod(modifiers) }`:
a fresh zero-valued `Modifiers`, toggles applied in order. -/
def applyMods (mods : List Modifier) : Modifiers :=
  mods.foldl (fun m f => f m) ⟨false, false⟩

/-- Result of `Client.Do`: the returned pair, plus the limiter state
after the call and the number of transport invocations it performed. -/
structure DoOut where
  resp : Option Response
  err : Option Err
  Limiter : Option Nat
  transportCalls : Nat
deriving DecidableEq, Repr

/-- `func (c *Client) Do(req, mods...)` from `operations.go` / `clent.go`. -/
def ClientDo (env : Env) (c : Client) (req : Request) (mods : List Modifier) : DoOut :=
  let modifiers := applyMods mods
  if modifiers.UseLimiter then
    match c.Limiter with
    | none => ⟨none, some "relax: limiter not defined", none, 0⟩
    | some tokens =>
      let tokens' := limiterWait tokens
      match env.transport req with
      | (_, some e) => ⟨none, some e, some tokens', 1⟩
      | (resp, none) => ⟨resp, none, some tokens', 1⟩
  else
    match env.transport req with
    | (_, some e) => ⟨none, some e, c.Limiter, 1⟩
    | (resp, none) => ⟨resp, none, c.Limiter, 1⟩

/-- Result of `Client.Get`: the returned pair, plus the cache and
limiter states after the call and the number of transport invocations. -/
structure GetOut where
  resp : Option Response
  err : Option Err
  Cache : Option CacheMap
  Limiter : Option Nat
  transportCalls : Nat
deriving DecidableEq, Repr

/-- The tail of `Get` after the cache branch fell through (cache miss or
caching disabled): `http.NewRequest`, then `resp, err = c.Do(req)` —
note the source passes NO modifiers to the inner `Do` — then the
source-faithful check `if err == nil { return nil, err }`, then the
conditional `c.Cache.SetDefault(url, resp)` and `return resp, err`. -/
def getTail (env : Env) (c : Client) (url : String) (modifiers : Modifiers) : GetOut :=
  match env.parseErr url with
  | some e => ⟨none, some e, c.Cache, c.Limiter, 0⟩
  | none =>
    let d := ClientDo env c ⟨"GET", url⟩ []
    if d.err.isNone then
      ⟨none, none, c.Cache, d.Limiter, d.transportCalls⟩
    else
      ⟨d.resp, d.err,
        if modifiers.UseCache then
          c.Cache.map (fun cm => cacheSetDefault cm url d.resp)
        else c.Cache,
        d.Limiter, d.transportCalls⟩

/-- `func (c *Client) Get(url, mods...)` from `operations.go` / `clent.go`. -/
def ClientGet (env : Env) (c : Client) (url : String) (mods : List Modifier) : GetOut :=
  let modifiers := applyMods mods
  if modifiers.UseCache then
    match c.Cache with
    | none => ⟨none, some "relax: cache not defined", none, c.Limiter, 0⟩
    | some cm =>
      match cacheGet cm url with
      | some cached => ⟨cached, none, some cm, c.Limiter, 0⟩
      | none => getTail env c url modifiers
  else getTail env c url modifiers

/-- The client state carried into a subsequent call: the cache and
limiter sub-objects as the previous call left them. -/
def afterGet (c : Client) (o : GetOut) : Client :=
  { c with Cache := o.Cache, Limiter := o.Limiter }

/-- `time.Second` in nanoseconds (Go `time.Duration` is int64 ns). -/
def timeSecond : Int := 1000000000

/-- `WithTimeout(duration)`: sets both the Client `Timeout` field and
the `Timeout` of the wrapped `http.Client`. -/
def WithTimeout (duration : Int) : Client → Client :=
  fun c => { c with Timeout := duration, HTTPTimeout := duration }

/-- `WithDefaultTimeout(duration)`: `return WithTimeout(5 * time.Second)`. -/
def WithDefaultTimeout (_duration : Int) : Client → Client :=
  WithTimeout (5 * timeSecond)

/-! Concrete fixtures used by the closed theorems and witnesses. -/

/-- A sample response produced by the transport. -/
def respA : Response := ⟨1⟩

/-- An environment whose transport always succeeds with `respA` and
where every URL parses. -/
def envOK : Env := ⟨fun _ => (some respA, none), fun _ => none⟩

/-- An environment whose transport always fails and where every URL
parses. -/
def envFail : Env := ⟨fun _ => (none, some "connection refused"), fun _ => none⟩

/-- A client with an empty cache and no limiter. -/
def cEmptyCache : Client := ⟨some [], none, 0, 0⟩

/-- C1: FALSE of the code. The inverted `if err == nil` check in `Get`
makes a successful dispatch return `(nil, nil)` without storing anything
in the cache, so the second `Get` misses and the transport is invoked
again: the transport call count reaches 2, not 1. -/
theorem C1_success_never_cached :
    (ClientGet envOK cEmptyCache "http://x/a" [UseCache true]).err = none ∧
    (ClientGet envOK cEmptyCache "http://x/a" [UseCache true]).resp = none ∧
    (ClientGet envOK cEmptyCache "http://x/a" [UseCache true]).Cache = some [] ∧
    (ClientGet envOK cEmptyCache "http://x/a" [UseCache true]).transportCalls +
      (ClientGet envOK
        (afterGet cEmptyCache (ClientGet envOK cEmptyCache "http://x/a" [UseCache true]))
        "http://x/a" [UseCache true]).transportCalls = 2 := by
  decide

/-- C2: FALSE of the code. `Get` calls the inner `c.Do(req)` with no
modifiers at all, so the limiter modifier requested on `Get` is NOT
passed through: `Get` with `UseLimiter(true)` behaves exactly like `Get`
with no modifiers, and in particular a dispatch through `Get` consumes
no limiter token. -/
theorem C2_limiter_modifier_not_forwarded :
    (∀ (env : Env) (c : Client) (url : String),
      ClientGet env c url [UseLimiter true] = ClientGet env c url []) ∧
    (ClientGet envOK ⟨none, some 5, 0, 0⟩ "http://x/a" [UseLimiter true]).Limiter = some 5 ∧
    (ClientGet envOK ⟨none, some 5, 0, 0⟩ "http://x/a" [UseLimiter true]).transportCalls = 1 := by
  refine ⟨fun env c url => ?_, by decide, by decide⟩
  show getTail env c url ⟨false, true⟩ = getTail env c url ⟨false, false⟩
  unfold getTail
  rfl

/-- C3: the `Do` half holds — with no limiter configured, `Do` with the
limiter modifier enabled fails with the configuration error and returns
no response, for every request and environment — but the `Get` half is
FALSE of the code: `Get` drops its modifiers before the inner dispatch,
so `Get` with the limiter modifier on a limiterless client proceeds to
dispatch instead of failing (here it returns a nil error). -/
theorem C3_do_fails_but_get_does_not (env : Env) (c : Client) (req : Request)
    (mods : List Modifier)
    (hm : (applyMods mods).UseLimiter = true) (hl : c.Limiter = none) :
    ClientDo env c req mods = ⟨none, some "relax: limiter not defined", none, 0⟩ ∧
    (ClientGet envOK ⟨none, none, 0, 0⟩ "http://x/a" [UseLimiter true]).err = none := by
  refine ⟨?_, by decide⟩
  simp [ClientDo, hm, hl]

/-- Witness for C3 at a concrete limiterless client and request. -/
theorem C3_witness :
    (applyMods [UseLimiter true]).UseLimiter = true ∧
    ClientDo envOK ⟨none, none, 0, 0⟩ ⟨"GET", "http://x/a"⟩ [UseLimiter true] =
      ⟨none, some "relax: limiter not defined", none, 0⟩ :=
  ⟨by decide,
   (C3_do_fails_but_get_does_not envOK ⟨none, none, 0, 0⟩ ⟨"GET", "http://x/a"⟩
      [UseLimiter true] (by decide) rfl).1⟩

/-- C4: FALSE of the code. On a successful dispatch `Get` returns
`(nil, nil)` — it neither returns the usable response the transport
produced nor an error — and on a failed dispatch with caching enabled it
mutates the cache (stores a nil entry) before returning the error, a
partial-failure state. -/
theorem C4_not_all_or_nothing :
    (envOK.transport ⟨"GET", "http://x/a"⟩).1 = some respA ∧
    (ClientGet envOK cEmptyCache "http://x/a" []).resp = none ∧
    (ClientGet envOK cEmptyCache "http://x/a" []).err = none ∧
    (ClientGet envFail cEmptyCache "http://x/a" [UseCache true]).err =
      some "connection refused" ∧
    (ClientGet envFail cEmptyCache "http://x/a" [UseCache true]).Cache =
      some [("http://x/a", none)] := by
  decide

/-- C5: on a cache hit, `Get` returns the cached response immediately
with no error, the limiter token count is untouched and the transport is
not invoked — for any modifier list that enables the cache (the limiter
modifier may also be enabled) and any configured limiter state. -/
theorem C5_cache_hit_bypasses_limiter (env : Env) (cm : CacheMap) (lim : Nat)
    (t ht : Int) (url : String) (v : Option Response) (mods : List Modifier)
    (hhit : cacheGet cm url = some v) (hmod : (applyMods mods).UseCache = true) :
    ClientGet env ⟨some cm, some lim, t, ht⟩ url mods = ⟨v, none, some cm, some lim, 0⟩ := by
  simp [ClientGet, hmod, hhit]

/-- Witness for C5: a client with a cached entry and 7 limiter tokens,
called with both modifiers enabled. -/
theorem C5_witness :
    cacheGet [("http://x/a", some respA)] "http://x/a" = some (some respA) ∧
    (applyMods [UseCache true, UseLimiter true]).UseCache = true ∧
    ClientGet envOK ⟨some [("http://x/a", some respA)], some 7, 0, 0⟩ "http://x/a"
      [UseCache true, UseLimiter true] =
      ⟨some respA, none, some [("http://x/a", some respA)], some 7, 0⟩ :=
  ⟨by decide, by decide,
   C5_cache_hit_bypasses_limiter envOK [("http://x/a", some respA)] 7 0 0 "http://x/a"
     (some respA) [UseCache true, UseLimiter true] (by decide) (by decide)⟩

/-- C6: with a nil cache, `Get` with the cache modifier enabled fails
with the configuration error for every URL, every environment and every
modifier list enabling the cache: no response, no transport call. -/
theorem C6_nil_cache_is_error (env : Env) (lim : Option Nat) (t ht : Int)
    (url : String) (mods : List Modifier)
    (hmod : (applyMods mods).UseCache = true) :
    ClientGet env ⟨none, lim, t, ht⟩ url mods =
      ⟨none, some "relax: cache not defined", none, lim, 0⟩ := by
  simp [ClientGet, hmod]

/-- Witness for C6 at a concrete cacheless client. -/
theorem C6_witness :
    (applyMods [UseCache true]).UseCache = true ∧
    ClientGet envOK ⟨none, none, 0, 0⟩ "http://x/a" [UseCache true] =
      ⟨none, some "relax: cache not defined", none, none, 0⟩ :=
  ⟨by decide,
   C6_nil_cache_is_error envOK none 0 0 "http://x/a" [UseCache true] (by decide)⟩

/-- C7: on a dispatch error with the cache modifier enabled, `Get`
stores the nil response under the URL before returning the error, and a
subsequent `Get` of the same URL hits that entry and returns a nil
response with a nil error and no transport call. -/
theorem C7_error_path_caches_nil (env : Env) (cm : CacheMap) (lim : Option Nat)
    (t ht : Int) (url : String) (r : Option Response) (e : Err)
    (hmiss : cacheGet cm url = none) (hparse : env.parseErr url = none)
    (htrans : env.transport ⟨"GET", url⟩ = (r, some e)) :
    ClientGet env ⟨some cm, lim, t, ht⟩ url [UseCache true] =
      ⟨none, some e, some (cacheSetDefault cm url none), lim, 1⟩ ∧
    ClientGet env
        (afterGet ⟨some cm, lim, t, ht⟩
          (ClientGet env ⟨some cm, lim, t, ht⟩ url [UseCache true]))
        url [UseCache true] =
      ⟨none, none, some (cacheSetDefault cm url none), lim, 0⟩ := by
  have h1 : ClientGet env ⟨some cm, lim, t, ht⟩ url [UseCache true] =
      ⟨none, some e, some (cacheSetDefault cm url none), lim, 1⟩ := by
    simp [ClientGet, hmiss, getTail, hparse, ClientDo, htrans, applyMods, UseCache]
  have hhit : cacheGet (cacheSetDefault cm url none) url = some none := by
    simp [cacheGet, cacheSetDefault, List.find?]
  refine ⟨h1, ?_⟩
  rw [h1]
  simp [afterGet, ClientGet, hhit, applyMods, UseCache]

/-- Witness for C7: empty cache, failing transport. -/
theorem C7_witness :
    cacheGet [] "http://x/a" = none ∧
    envFail.parseErr "http://x/a" = none ∧
    envFail.transport ⟨"GET", "http://x/a"⟩ = (none, some "connection refused") ∧
    ClientGet envFail ⟨some [], none, 0, 0⟩ "http://x/a" [UseCache true] =
      ⟨none, some "connection refused", some (cacheSetDefault [] "http://x/a" none),
        none, 1⟩ :=
  ⟨rfl, rfl, rfl,
   (C7_error_path_caches_nil envFail [] none 0 0 "http://x/a" none
      "connection refused" rfl rfl rfl).1⟩

/-- C8: the per-call `Modifiers` value defaults both flags to false when
no toggles are supplied, and the toggles are applied in order: the last
`UseCache`/`UseLimiter` toggle determines its flag whatever toggles came
before it, and it leaves the other flag untouched. -/
theorem C8_modifiers_defaults_and_order :
    applyMods [] = ⟨false, false⟩ ∧
    (∀ (ms : List Modifier) (b : Bool),
      applyMods (ms ++ [UseCache b]) = ⟨b, (applyMods ms).UseLimiter⟩) ∧
    (∀ (ms : List Modifier) (b : Bool),
      applyMods (ms ++ [UseLimiter b]) = ⟨(applyMods ms).UseCache, b⟩) := by
  refine ⟨rfl, ?_, ?_⟩ <;> intro ms b <;>
    simp [applyMods, List.foldl_append, UseCache, UseLimiter]

/-- C10: `WithDefaultTimeout` discards its duration argument and is the
same feature as `WithTimeout(5 * time.Second)`: it always sets a
5-second (5e9 ns) timeout on the client and its HTTP transport. -/
theorem C10_default_timeout_ignores_argument (d : Int) (c : Client) :
    WithDefaultTimeout d c = WithTimeout (5 * timeSecond) c ∧
    (WithDefaultTimeout d c).Timeout = 5000000000 ∧
    (WithDefaultTimeout d c).HTTPTimeout = 5000000000 := by
  refine ⟨rfl, ?_, ?_⟩ <;> simp [WithDefaultTimeout, WithTimeout, timeSecond]

/-- Storing under key `A` does not change lookups of a different key `B`. -/
lemma cacheGet_setDefault_ne (cm : CacheMap) (A B : String) (v : Option Response)
    (h : A ≠ B) : cacheGet (cacheSetDefault cm A v) B = cacheGet cm B := by
  have hb : (A == B) = false := beq_eq_false_iff_ne.mpr h
  simp [cacheGet, cacheSetDefault, List.find?, hb]

/-- After any `Get` on a client whose cache is `cm`, the cache is either
unchanged or has exactly one `cacheSetDefault` of the requested URL
applied to it. -/
lemma ClientGet_cache_characterization (env : Env) (cm : CacheMap)
    (lim : Option Nat) (t ht : Int) (url : String) (mods : List Modifier) :
    (ClientGet env ⟨some cm, lim, t, ht⟩ url mods).Cache = some cm ∨
    ∃ r, (ClientGet env ⟨some cm, lim, t, ht⟩ url mods).Cache =
      some (cacheSetDefault cm url r) := by
  have htail : ∀ (m : Modifiers),
      (getTail env ⟨some cm, lim, t, ht⟩ url m).Cache = some cm ∨
      ∃ r, (getTail env ⟨some cm, lim, t, ht⟩ url m).Cache =
        some (cacheSetDefault cm url r) := by
    intro m
    unfold getTail
    cases env.parseErr url with
    | some e => exact Or.inl rfl
    | none =>
      dsimp only
      split
      · exact Or.inl rfl
      · by_cases hm : m.UseCache
        · right
          refine ⟨(ClientDo env ⟨some cm, lim, t, ht⟩ ⟨"GET", url⟩ []).resp, ?_⟩
          simp [hm]
        · exact Or.inl (by simp [hm])
  unfold ClientGet
  by_cases hc : (applyMods mods).UseCache
  · simp only [hc, if_true]
    cases hA : cacheGet cm url with
    | some cached => exact Or.inl rfl
    | none => exact htail _
  · simp only [hc, if_false, Bool.false_eq_true]
    exact htail _

/-- C9: cache entries for distinct URLs never collide. If URL `B` is
absent from the cache, then after any `Get(A)` with `A ≠ B` — whatever
its modifiers, environment or outcome — a lookup of `B` in the resulting
cache still misses. -/
theorem C9_distinct_urls_never_collide (env : Env) (cm cm' : CacheMap)
    (lim : Option Nat) (t ht : Int) (A B : String) (mods : List Modifier)
    (hne : A ≠ B) (hB : cacheGet cm B = none)
    (hout : (ClientGet env ⟨some cm, lim, t, ht⟩ A mods).Cache = some cm') :
    cacheGet cm' B = none := by
  rcases ClientGet_cache_characterization env cm lim t ht A mods with h | ⟨r, h⟩
  · rw [hout] at h
    injection h with h
    rw [h]
    exact hB
  · rw [hout] at h
    injection h with h
    rw [h, cacheGet_setDefault_ne cm A B r hne]
    exact hB

/-- Witness for C9: a failing transport makes `Get("http://x/a")` store
an entry under URL `a`; URL `b` still misses afterwards. -/
theorem C9_witness :
    "http://x/a" ≠ "http://x/b" ∧
    cacheGet [] "http://x/b" = none ∧
    (ClientGet envFail ⟨some [], none, 0, 0⟩ "http://x/a" [UseCache true]).Cache =
      some [("http://x/a", none)] ∧
    cacheGet [("http://x/a", none)] "http://x/b" = none :=
  ⟨by decide, rfl, by decide,
   C9_distinct_urls_never_collide envFail [] [("http://x/a", none)] none 0 0
     "http://x/a" "http://x/b" [UseCache true] (by decide) rfl (by decide)⟩
